import Mathlib

/-!
Verification of the VNTimeTracker accounting core against its
natural-language specification.

Shallow embedding of the repository's Python code:
* `vn_tracker/utils/data_storage.py` (`TimeDataManager`) — the durable
  time store: the in-memory ledger, `add_time`, `get_today_seconds`,
  `get_weekly_seconds`, `reset_today`, `load`, `save`, `emergency_save`.
* `vn_tracker/core/tracker.py` (`TimeTracker`) — the tracking state
  machine: `stop`, `get_current_seconds`, and one iteration of
  `_track_loop`.
* `vn_tracker/core/process_monitor.py` (`ProcessMonitor`) —
  `_update_process_list`.

Modelling conventions:
* A Python `dict[str, dict[str, int]]` ledger is embedded as a function
  `String → Option (ℤ → Option ℤ)`: `none` is an absent key, calendar
  dates are day indices in `ℤ` (the `strftime("%Y-%m-%d")` keys are in
  bijection with days, and `today - timedelta(days=i)` becomes `today - i`).
* Python exceptions are `Except String`; a `try/except` that swallows the
  exception becomes a `match` on the `Except` value.
* Python truthiness of a `str`/`Optional[str]` value (`if not vn_title:`)
  is falsy exactly on `none` and the empty string; truthiness of an
  `Optional[float]` timestamp (`if self.last_start:`) is falsy exactly on
  `none` and `0`.
* Timestamps and elapsed seconds are integers (`ℤ`); `int()` truncation
  of a difference of integer timestamps is the identity.  Idle durations
  (floats in the source) are rationals (`ℚ`).
* Whether a lock acquisition with timeout succeeds, and whether each
  filesystem step succeeds, are boolean parameters of the embedded
  functions: the code's behaviour is modelled on every combination of
  outcomes.
* Lock acquisitions/releases and observer-callback invocations are
  recorded as explicit event traces (`Event`), so that "callbacks run
  outside the lock" is a statement about the traces.  Only the lock
  of the component under discussion is traced: the tracker's
  `self._data_lock` (an `RLock`, hence the nested acquire/release pair
  for the `get_current_seconds` call made inside the tick), and the
  process monitor's `self._lock`.
-/

namespace VNTracker

/-- A per-target map from day index to accumulated seconds
(the inner `dict[str, int]` of the ledger). -/
def DayMap : Type := ℤ → Option ℤ

/-- The in-memory ledger `self._data : dict[str, dict[str, int]]`. -/
def Ledger : Type := String → Option DayMap

/-- An empty dict `{}`. -/
def Ledger.empty : Ledger := fun _ => none

/-- An empty inner dict `{}`. -/
def DayMap.empty : DayMap := fun _ => none

/-- The mutable state of a `TimeDataManager`: the ledger `self._data`
and the dirty flag `self._pending_changes`. -/
structure Store where
  data : Ledger
  pending : Bool

/-- The Python expression `self._data.get(vn_title, {}).get(date, 0)`. -/
def Store.entry (st : Store) (vn_title : String) (date : ℤ) : ℤ :=
  ((st.data vn_title).getD DayMap.empty date).getD 0

/-- On-disk bytes of one file: `none` models bytes that fail to parse
(or a file that cannot be read), `some l` a valid JSON serialization of
the ledger `l`. -/
def FileContent : Type := Option Ledger

/-- The files a `TimeDataManager` touches: `self.log_file` (primary),
`self.backup_file`, `self.temp_file`, and the two emergency sidecar
files of `emergency_save`.  `none` means the file does not exist. -/
structure FS where
  primary : Option FileContent
  backup : Option FileContent
  temp : Option FileContent
  emergency_json : Option Ledger
  emergency_text : Bool

/-- `json.load` on a file's content: raises on unparsable bytes. -/
def parse_json : FileContent → Except String Ledger
  | none => .error "json parse error"
  | some l => .ok l

/-- Outcome of the `open(self.temp_file, "w")` / `json.dump` step of
`save`: it can succeed, fail after the file was created (leaving
partially written, unparsable bytes behind), or fail with the file never
created (e.g. `open` itself raising). -/
inductive WriteTempOutcome where
  | success
  | failPartial
  | failOpen
  deriving DecidableEq

/-- Which of `save`'s fallible steps succeed on a given call:
the 10 s lock acquisition, the `shutil.copy2` backup, the temp-file
write, the re-read validation of the temp file, the
`os.replace`/`os.rename` step, and the `os.remove` cleanup of the temp
file in the failure branch (the source wraps that removal in its own
`try/except pass`, so the removal itself can fail and leave the temp
file behind). -/
structure SaveEnv where
  lock_ok : Bool
  backup_ok : Bool
  write_temp : WriteTempOutcome
  validate_ok : Bool
  replace_ok : Bool
  remove_ok : Bool

/-- The stages of `TimeDataManager.emergency_save`'s fallback chain. -/
inductive EmStage where
  | regular
  | jsonSidecar
  | textDump
  deriving DecidableEq

/-- `true` exactly on `Except.ok`. -/
def exceptIsOk {ε α : Type} : Except ε α → Bool
  | .ok _ => true
  | .error _ => false

namespace TimeDataManager

/-- `TimeDataManager.add_time(vn_title, seconds, date)`
(data_storage.py lines 127-152).  Returns without doing anything when
`not vn_title or seconds <= 0`; otherwise acquires the store lock with a
5 s timeout (`lock_ok` tells whether the acquisition succeeded), raising
on timeout; under the lock it does
`self._data.setdefault(vn_title, {})`, reads
`self._data[vn_title].get(date, 0)`, stores the sum back and sets
`self._pending_changes = True`. -/
def add_time (lock_ok : Bool) (st : Store) (vn_title : String)
    (seconds : ℤ) (date : ℤ) : Except String Store :=
  if vn_title = "" ∨ seconds ≤ 0 then
    .ok st
  else if lock_ok then
    let inner : DayMap := (st.data vn_title).getD DayMap.empty
    let current_time : ℤ := (inner date).getD 0
    .ok { data := fun t =>
            if t = vn_title then
              some (fun d => if d = date then some (current_time + seconds) else inner d)
            else st.data t,
          pending := true }
  else
    .error "Failed to acquire data lock for add_time operation within timeout"

/-- `TimeDataManager.get_today_seconds(vn_title)`
(data_storage.py lines 154-164): `0` when `not vn_title`, otherwise
`self._data.get(vn_title, {}).get(today, 0)`. -/
def get_today_seconds (st : Store) (vn_title : String) (today : ℤ) : ℤ :=
  if vn_title = "" then 0
  else ((st.data vn_title).getD DayMap.empty today).getD 0

/-- `TimeDataManager.get_weekly_seconds(vn_title)`
(data_storage.py lines 166-180): `0` when `not vn_title`, otherwise the
sum over `i in range(7)` of the entry at `today - timedelta(days=i)`. -/
def get_weekly_seconds (st : Store) (vn_title : String) (today : ℤ) : ℤ :=
  if vn_title = "" then 0
  else ((List.range 7).map
    (fun (i : ℕ) =>
      ((st.data vn_title).getD DayMap.empty (today - (i : ℤ))).getD 0)).sum

/-- `TimeDataManager.reset_today(vn_title)`
(data_storage.py lines 245-254): returns immediately when
`not vn_title`; otherwise, under the (blocking, untimed) store lock,
does `self._data.setdefault(vn_title, {})`,
`self._data[vn_title][today] = 0` and sets
`self._pending_changes = True`. -/
def reset_today (st : Store) (vn_title : String) (today : ℤ) : Store :=
  if vn_title = "" then st
  else
    let inner : DayMap := (st.data vn_title).getD DayMap.empty
    { data := fun t =>
        if t = vn_title then some (fun d => if d = today then some 0 else inner d)
        else st.data t,
      pending := true }

/-- Apply a sequence of `add_time(vn_title, s, date)` calls (each with
its lock acquisition succeeding), propagating a raised exception. -/
def run_add_times (vn_title : String) (date : ℤ) :
    Store → List ℤ → Except String Store
  | st, [] => .ok st
  | st, s :: rest =>
    match add_time true st vn_title s date with
    | .ok st' => run_add_times vn_title date st' rest
    | .error e => .error e

/-- `TimeDataManager._recover_from_backup` (data_storage.py lines
33-44): if the backup file exists and parses, replace `self._data` with
its content and return `True`; on any failure (missing or unparsable
backup) swallow the exception and return `False`. -/
def recover_from_backup (fs : FS) (st : Store) : Store × Bool :=
  match fs.backup with
  | some c =>
    match parse_json c with
    | .ok b => ({ st with data := b }, true)
    | .error _ => (st, false)
  | none => (st, false)

/-- `TimeDataManager.load` (data_storage.py lines 46-63), under the
blocking store lock: if the primary file exists, parse it into
`self._data`; if it does not exist, start with `{}`; on a parse/read
exception, try `_recover_from_backup()` and fall back to `{}` when that
fails too.  Every path ends with `self._pending_changes = False`.  All
exceptions are caught, so the embedding is a total function: `load`
never raises. -/
def load (fs : FS) (st : Store) : Store :=
  match fs.primary with
  | some c =>
    match parse_json c with
    | .ok d => { data := d, pending := false }
    | .error _ =>
      let r := recover_from_backup fs st
      if r.2 then { r.1 with pending := false }
      else { data := Ledger.empty, pending := false }
  | none => { data := Ledger.empty, pending := false }

/-- `TimeDataManager._create_backup` (data_storage.py lines 25-31):
copy the primary file over the backup file when the primary exists;
any exception (modelled by `ok = false`) is swallowed. -/
def create_backup (ok : Bool) (fs : FS) : FS :=
  if ok then
    match fs.primary with
    | some c => { fs with backup := some c }
    | none => fs
  else fs

/-- `TimeDataManager.save(force_backup)` (data_storage.py lines
65-125).  Acquires the store lock with a 10 s timeout, raising on
timeout.  If `self._pending_changes or force_backup`, copies the primary
file over the backup file when the primary exists (`_create_backup`;
its exceptions are swallowed, modelled by `backup_ok = false`).  Then
writes the full ledger to the temp file; a failure there propagates
(re-raised) with no cleanup of a partially written temp file.  On a
successful write it re-reads and parses the temp file (the bytes just
written always parse; `validate_ok = false` models an I/O failure of the
re-read) and replaces the primary file with the temp file
(`os.replace`/`os.rename`, both with the same effect); a failure in
validation or replacement attempts to remove the temp file — the
`os.remove` sits in its own `try/except pass`, so the attempt can
itself fail and leave the file (`remove_ok`) — and re-raises.  On full
success `self._pending_changes = False`.  The source's
`raise Exception("Temporary file was not created")` branch (write
reported success but the file is absent) cannot arise in the model.
The state `self._data is None` guarded at the top cannot arise either,
as `Store.data` is total. -/
def save (env : SaveEnv) (force_backup : Bool) (st : Store) (fs : FS) :
    FS × Except String Store :=
  if ¬env.lock_ok then
    (fs, .error "Failed to acquire data lock for save operation within timeout")
  else
    let fs1 :=
      if st.pending || force_backup then create_backup env.backup_ok fs else fs
    match env.write_temp with
    | .failOpen => (fs1, .error "Failed to write temporary file")
    | .failPartial => ({ fs1 with temp := some none }, .error "Failed to write temporary file")
    | .success =>
      let fs2 := { fs1 with temp := some (some st.data) }
      if env.validate_ok then
        if env.replace_ok then
          ({ fs2 with primary := some (some st.data), temp := none },
           .ok { st with pending := false })
        else
          (if env.remove_ok then { fs2 with temp := none } else fs2,
           .error "Failed to validate or replace file")
      else
        (if env.remove_ok then { fs2 with temp := none } else fs2,
         .error "Failed to validate or replace file")

/-- `TimeDataManager.emergency_save` (data_storage.py lines 213-243):
try `self.save(force_backup=True)`; if it raises, try to `json.dump`
the ledger into a timestamped emergency file (`json_ok` tells whether
that write succeeds); if that raises too, try to write a flat-text dump
(`text_ok`); a failure of the final stage is swallowed as well, so the
function is total — it never raises.  The returned list records which
stages were attempted, in order. -/
def emergency_save (env : SaveEnv) (json_ok text_ok : Bool) (st : Store)
    (fs : FS) : Store × FS × List EmStage :=
  match save env true st fs with
  | (fs1, .ok st') => (st', fs1, [.regular])
  | (fs1, .error _) =>
    if json_ok then
      (st, { fs1 with emergency_json := some st.data }, [.regular, .jsonSidecar])
    else if text_ok then
      (st, { fs1 with emergency_text := true }, [.regular, .jsonSidecar, .textDump])
    else
      (st, fs1, [.regular, .jsonSidecar, .textDump])

end TimeDataManager

/-- The three tracking states of tracker.py lines 14-18. -/
inductive TrackingState where
  | ACTIVE
  | AFK
  | INACTIVE
  deriving DecidableEq

/-- Events traced by the embedded tracker / process monitor code:
acquisitions and releases of the component's own lock, and observer
callback invocations. -/
inductive Event where
  | acquire
  | release
  | stateCallback
  | updateCallback
  | processListCallback
  deriving DecidableEq

/-- Helper for `callbacksOutsideLock`: walk the trace keeping the
current lock depth, and check that every callback event happens at
depth 0. -/
def eventsOutsideLock : ℕ → List Event → Bool
  | _, [] => true
  | d, .acquire :: es => eventsOutsideLock (d + 1) es
  | d, .release :: es => eventsOutsideLock (d - 1) es
  | d, _ :: es => (d == 0) && eventsOutsideLock d es

/-- Every callback event of the trace happens while the traced lock is
not held. -/
def callbacksOutsideLock (es : List Event) : Bool :=
  eventsOutsideLock 0 es

/-- Python truthiness of an `Optional[str]`. -/
def strTruthy : Option String → Bool
  | none => false
  | some s => !(s == "")

/-- Python truthiness of an `Optional[float]` timestamp. -/
def intTruthy : Option ℤ → Bool
  | none => false
  | some v => !(v == 0)

namespace TimeTracker

/-- The mutable fields of a `TimeTracker` (tracker.py lines 28-52) that
the embedded operations read or write.  The callback lists are modelled
by their lengths, since only the number of invocations matters for the
traces. -/
structure TrackerState where
  running : Bool
  selected_vn_title : Option String
  selected_process : Option String
  last_start : Option ℤ
  afk_threshold : ℤ
  current_state : TrackingState
  store : Store
  last_save_time : ℤ
  n_state_callbacks : ℕ
  n_update_callbacks : ℕ

/-- `self._save_interval = 10` (tracker.py line 52). -/
def save_interval : ℤ := 10

/-- `safe_call(self.data_manager.add_time, ...)`: `safe_call`
(crash_logger.py) runs the call and swallows any exception, logging it
and returning the default; the store is then unchanged. -/
def safe_add_time (lock_ok : Bool) (st : Store) (vn_title : String)
    (seconds : ℤ) (date : ℤ) : Store :=
  match TimeDataManager.add_time lock_ok st vn_title seconds date with
  | .ok st' => st'
  | .error _ => st

/-- `TimeTracker.get_current_seconds` (tracker.py lines 136-145), the
body under the reentrant `self._data_lock`: `0` when
`not self.selected_vn_title`; otherwise today's stored seconds for the
selected title, plus `int(time.time() - self.last_start)` when
`self.last_start` is truthy. -/
def get_current_seconds (now today : ℤ) (ts : TrackerState) : ℤ :=
  if !strTruthy ts.selected_vn_title then 0
  else
    let base :=
      TimeDataManager.get_today_seconds ts.store (ts.selected_vn_title.getD "") today
    if intTruthy ts.last_start then base + (now - ts.last_start.getD 0) else base

/-- The per-tick inputs of one `_track_loop` iteration: the sampled
time, date, foreground process and idle duration, and whether the two
timed lock acquisitions of the iteration succeed (`self._data_lock`
with a 2 s timeout, and the data manager's lock inside `add_time`). -/
structure TickEnv where
  now : ℤ
  today : ℤ
  active_process : Option String
  idle : ℚ
  data_lock_ok : Bool
  add_lock_ok : Bool

/-- One iteration of `TimeTracker._track_loop` (tracker.py lines
195-324).  With no selected process/title the state is set INACTIVE and
the iteration ends (no lock taken, no callbacks).  Otherwise the
iteration samples the foreground process and idle time, acquires
`self._data_lock` (on timeout: no state change, no callbacks), and under
the lock: decides INACTIVE / AFK / ACTIVE — flushing
`int(time.time() - self.last_start)` into the ledger via a swallowed
`add_time` call and clearing `self.last_start` on the transitions away
from ACTIVE, starting the session (`self.last_start = time.time()`)
when ACTIVE with `self.last_start is None` — then, when ACTIVE with a
truthy `self.last_start` and more than `self._save_interval` seconds
since `self._last_save_time`, flushes the partial elapsed time (when
positive) and resets both `self.last_start` and `self._last_save_time`
to now; stores the state; computes `self.get_current_seconds()` (the
nested reentrant acquire/release in the trace); releases the lock; and
only then invokes the state callbacks and the update callbacks. -/
def track_tick (env : TickEnv) (ts : TrackerState) : TrackerState × List Event :=
  if !strTruthy ts.selected_process || !strTruthy ts.selected_vn_title then
    ({ ts with current_state := .INACTIVE }, [])
  else
    let is_process_active : Bool := env.active_process == ts.selected_process
    if env.data_lock_ok then
      if ¬ts.running then (ts, [.acquire, .release])
      else
        let title := ts.selected_vn_title.getD ""
        let step1 : TrackingState × Store × Option ℤ :=
          if ¬is_process_active then
            if intTruthy ts.last_start then
              (.INACTIVE,
               safe_add_time env.add_lock_ok ts.store title
                 (env.now - ts.last_start.getD 0) env.today,
               none)
            else (.INACTIVE, ts.store, ts.last_start)
          else if (ts.afk_threshold : ℚ) < env.idle then
            if intTruthy ts.last_start then
              (.AFK,
               safe_add_time env.add_lock_ok ts.store title
                 (env.now - ts.last_start.getD 0) env.today,
               none)
            else (.AFK, ts.store, ts.last_start)
          else
            if ts.last_start = none then (.ACTIVE, ts.store, some env.now)
            else (.ACTIVE, ts.store, ts.last_start)
        let state := step1.1
        let store1 := step1.2.1
        let last1 := step1.2.2
        let step2 : Store × Option ℤ × ℤ :=
          if state = .ACTIVE ∧ intTruthy last1 = true ∧
              save_interval < env.now - ts.last_save_time then
            let elapsed := env.now - last1.getD 0
            if 0 < elapsed then
              (safe_add_time env.add_lock_ok store1 title elapsed env.today,
               some env.now, env.now)
            else (store1, last1, ts.last_save_time)
          else (store1, last1, ts.last_save_time)
        let ts' := { ts with
          current_state := state
          store := step2.1
          last_start := step2.2.1
          last_save_time := step2.2.2 }
        (ts',
         [.acquire, .acquire, .release, .release]
           ++ List.replicate ts.n_state_callbacks .stateCallback
           ++ List.replicate ts.n_update_callbacks .updateCallback)
    else
      (ts, [])

/-- `TimeTracker.stop` (tracker.py lines 65-112).  Does nothing when not
running.  Otherwise sets the shutdown event and tries `self._data_lock`
with a 10 s timeout: on success, flushes
`int(time.time() - self.last_start)` for the selected title when both
`self.selected_vn_title` and `self.last_start` are truthy (a swallowed
`add_time` call) and clears `self.last_start`, then calls
`self.data_manager.save(force_backup=True)` — a file-level effect,
including its clearing of the store's pending flag on success, that is
modelled by `TimeDataManager.save` and not repeated here; on lock
timeout it calls `self.data_manager.emergency_save()` (likewise
file-level, modelled by `TimeDataManager.emergency_save`).
Then sets `self.running = False` and joins the loop threads.  It never
touches `self.selected_vn_title`, `self.selected_process` or
`self.current_state`, and invokes no callbacks (empty event trace). -/
def stop (now today : ℤ) (lock_ok add_lock_ok : Bool) (ts : TrackerState) :
    TrackerState × List Event :=
  if ¬ts.running then (ts, [])
  else
    let ts1 :=
      if lock_ok then
        if strTruthy ts.selected_vn_title && intTruthy ts.last_start then
          { ts with
            store := safe_add_time add_lock_ok ts.store
                       (ts.selected_vn_title.getD "")
                       (now - ts.last_start.getD 0) today
            last_start := none }
        else ts
      else ts
    ({ ts1 with running := false }, [])

end TimeTracker

namespace ProcessMonitor

/-- `ProcessMonitor._update_process_list` (process_monitor.py lines
56-95).  `new_list` is the freshly sampled `get_running_processes()`
result (computed before taking the lock), `old_list` the stored
`self.process_list`, `n_callbacks` the length of
`self.process_list_callbacks`.  The monitor's lock is acquired with a
2 s timeout (no update and no callbacks on timeout); under the lock,
when the new list differs from the stored one, the list is replaced and
every registered callback is invoked with a defensive copy — before the
lock is released. -/
def update_process_list (lock_ok : Bool) (new_list old_list : List String)
    (n_callbacks : ℕ) : List String × List Event :=
  if lock_ok then
    if new_list ≠ old_list then
      (new_list,
       [.acquire] ++ List.replicate n_callbacks .processListCallback ++ [.release])
    else (old_list, [.acquire, .release])
  else (old_list, [])

end ProcessMonitor

/-- The store `⟨{}, False⟩` of a freshly constructed manager with no file. -/
def freshStore : Store := ⟨Ledger.empty, false⟩

/-- A store whose ledger maps the empty-string target to `{0: 5}`
(such a ledger arises from a hand-edited data file). -/
def emptyTitleStore : Store :=
  ⟨fun t => if t = "" then some (fun d => if d = 0 then some 5 else none) else none,
   false⟩

/-- A store marked dirty with an empty ledger. -/
def dirtyStore : Store := ⟨Ledger.empty, true⟩

/-- An on-disk state with a valid (empty-ledger) primary file and no
other files. -/
def sampleFS : FS :=
  { primary := some (some Ledger.empty)
    backup := none
    temp := none
    emergency_json := none
    emergency_text := false }

/-- An on-disk state whose primary file is corrupted and whose backup
file holds a valid empty ledger. -/
def corruptPrimaryFS : FS :=
  { primary := some none
    backup := some (some Ledger.empty)
    temp := none
    emergency_json := none
    emergency_text := false }

/-- A save attempt where the temp-file write fails after the temp file
was created (partially written bytes are left behind). -/
def failPartialEnv : SaveEnv :=
  { lock_ok := true
    backup_ok := true
    write_temp := .failPartial
    validate_ok := true
    replace_ok := true
    remove_ok := true }

/-- A save attempt where everything succeeds except the re-read
validation of the temp file. -/
def validateFailEnv : SaveEnv :=
  { lock_ok := true
    backup_ok := true
    write_temp := .success
    validate_ok := false
    replace_ok := true
    remove_ok := true }

/-- A sample tracker state: tracking is running, target `"vn"` is bound
to process `"foo.exe"`, no open session, AFK threshold 60 s, one state
callback and one update callback registered. -/
def sampleTracker : TimeTracker.TrackerState :=
  { running := true
    selected_vn_title := some "vn"
    selected_process := some "foo.exe"
    last_start := none
    afk_threshold := 60
    current_state := .INACTIVE
    store := freshStore
    last_save_time := 0
    n_state_callbacks := 1
    n_update_callbacks := 1 }

/-- A sample tick: `"foo.exe"` is the foreground process, the idle
duration is exactly the 60 s AFK threshold, both lock acquisitions
succeed. -/
def sampleTieEnv : TimeTracker.TickEnv :=
  { now := 100
    today := 0
    active_process := some "foo.exe"
    idle := 60
    data_lock_ok := true
    add_lock_ok := true }

/-- `sampleTracker` with an open session that started at timestamp 50. -/
def sampleSessionTracker : TimeTracker.TrackerState :=
  { sampleTracker with last_start := some 50, current_state := .ACTIVE }

/-- A sample tick for the periodic-flush path: foreground process
matches, idle 0, 100 seconds since the last flush. -/
def sampleFlushEnv : TimeTracker.TickEnv :=
  { sampleTieEnv with idle := 0 }

end VNTracker

namespace VNTracker

namespace TimeDataManager

lemma not_add_time_guard {t : String} {s : ℤ} (ht : t ≠ "") (hs : 0 < s) :
    ¬(t = "" ∨ s ≤ 0) := by
  push_neg
  exact ⟨ht, by omega⟩

lemma add_time_ok (st : Store) (t : String) (s d : ℤ)
    (ht : t ≠ "") (hs : 0 < s) :
    add_time true st t s d = .ok
      { data := fun u =>
          if u = t then
            some (fun e =>
              if e = d then some (((st.data t).getD DayMap.empty d).getD 0 + s)
              else ((st.data t).getD DayMap.empty) e)
          else st.data u,
        pending := true } := by
  rw [add_time, if_neg (not_add_time_guard ht hs)]
  rfl

lemma run_add_times_ok (t : String) (d : ℤ) (ht : t ≠ "") :
    ∀ (l : List ℤ) (st : Store), (∀ s ∈ l, 0 < s) →
      ∃ st', run_add_times t d st l = .ok st' ∧
        st'.entry t d = st.entry t d + l.sum ∧ st'.pending = (l = [] → st.pending)
  | [], st, _ => ⟨st, rfl, by simp, by simp⟩
  | s :: rest, st, h => by
    have hs : 0 < s := h s (by simp)
    have hrest : ∀ x ∈ rest, 0 < x := fun x hx => h x (by simp [hx])
    obtain ⟨st', h1, h2, h3⟩ := run_add_times_ok t d ht rest _ hrest
    refine ⟨st', ?_, ?_, ?_⟩
    · rw [run_add_times, add_time_ok st t s d ht hs]
      exact h1
    · rw [h2]
      have : Store.entry
          { data := fun u =>
              if u = t then
                some (fun e =>
                  if e = d then some (((st.data t).getD DayMap.empty d).getD 0 + s)
                  else ((st.data t).getD DayMap.empty) e)
              else st.data u,
            pending := true } t d = st.entry t d + s := by
        simp [Store.entry]
      rw [this, List.sum_cons]
      ring
    · rw [h3]
      simp

end TimeDataManager

/-- C1 as stated is false at the empty-string target: starting from an
empty ledger (entry absent, counting as 0), one `AddTime("", 5)` call
with `5 > 0` returns normally but leaves the ledger unchanged, and
`GetTodaySeconds("")` returns `0`, not `0 + 5` as the claim requires. -/
theorem C1_empty_target_counterexample :
    TimeDataManager.add_time true freshStore "" 5 0 = .ok freshStore ∧
    TimeDataManager.get_today_seconds freshStore "" 0 = 0 ∧
    (0 : ℤ) ≠ 0 + 5 :=
  ⟨rfl, rfl, by decide⟩

/-- C1 (amended to non-empty targets): for every non-empty target `t`,
every date `d`, and every finite sequence of `AddTime(t, s₁)`,
`AddTime(t, s₂)`, … calls with each `sᵢ > 0` (each acquiring the store
lock) applied to a ledger whose entry for `(t, d)` starts at value `v`
(absent counting as 0), every call succeeds, the resulting entry for
`(t, d)` equals `v` plus the sum of all `sᵢ`, and `GetTodaySeconds(t)`
with `d` = today returns exactly that value; no addition is lost. -/
theorem C1_add_time_accumulates (st : Store) (t : String) (d : ℤ) (l : List ℤ)
    (ht : t ≠ "") (hpos : ∀ s ∈ l, 0 < s) :
    ∃ st', TimeDataManager.run_add_times t d st l = .ok st' ∧
      st'.entry t d = st.entry t d + l.sum ∧
      TimeDataManager.get_today_seconds st' t d = st.entry t d + l.sum := by
  obtain ⟨st', h1, h2, _⟩ := TimeDataManager.run_add_times_ok t d ht l st hpos
  refine ⟨st', h1, h2, ?_⟩
  rw [TimeDataManager.get_today_seconds, if_neg ht]
  exact h2

/-- Witness for C1 at a concrete input: target `"vn"`, additions `[3, 4]`. -/
theorem C1_add_time_accumulates_witness :
    ("vn" : String) ≠ "" ∧ (∀ s ∈ [(3 : ℤ), 4], 0 < s) ∧
    (∃ st', TimeDataManager.run_add_times "vn" 0 freshStore [3, 4] = .ok st' ∧
      st'.entry "vn" 0 = freshStore.entry "vn" 0 + [(3 : ℤ), 4].sum ∧
      TimeDataManager.get_today_seconds st' "vn" 0
        = freshStore.entry "vn" 0 + [(3 : ℤ), 4].sum) :=
  ⟨by decide, by decide,
   C1_add_time_accumulates freshStore "vn" 0 [3, 4] (by decide) (by decide)⟩

/-- C10: for every target `t` with `t` empty or every `s ≤ 0`, and
whether or not the lock could be acquired, `AddTime(t, s)` is a silent
no-op: it returns normally (no exception), with the ledger and the
pending-changes flag unchanged. -/
theorem C10_add_time_noop (lock_ok : Bool) (st : Store) (t : String) (s d : ℤ)
    (h : t = "" ∨ s ≤ 0) :
    TimeDataManager.add_time lock_ok st t s d = .ok st := by
  rw [TimeDataManager.add_time, if_pos h]

/-- Witness for C10 at a concrete input: empty target, positive seconds,
lock unavailable. -/
theorem C10_add_time_noop_witness :
    (("" : String) = "" ∨ (5 : ℤ) ≤ 0) ∧
    TimeDataManager.add_time false ⟨Ledger.empty, true⟩ "" 5 0
      = .ok ⟨Ledger.empty, true⟩ :=
  ⟨Or.inl rfl, C10_add_time_noop false ⟨Ledger.empty, true⟩ "" 5 0 (Or.inl rfl)⟩

lemma reset_today_data_eq (st : Store) (t : String) (today : ℤ) (ht : t ≠ "") :
    (TimeDataManager.reset_today st t today).data t
      = some (fun d => if d = today then some 0
          else ((st.data t).getD DayMap.empty) d) := by
  rw [TimeDataManager.reset_today, if_neg ht]
  simp

lemma reset_today_entry (st : Store) (t : String) (today d : ℤ) (ht : t ≠ "") :
    (TimeDataManager.reset_today st t today).entry t d
      = if d = today then 0 else st.entry t d := by
  rw [Store.entry, reset_today_data_eq st t today ht]
  by_cases hd : d = today <;> simp [hd, Store.entry]

/-- C9 as stated is false at the empty-string target: on a ledger whose
entry for the empty target today is 5, `ResetToday("")` is a no-op — the
entry stays 5 (not 0) and the store is not marked dirty. -/
theorem C9_empty_target_counterexample :
    TimeDataManager.reset_today emptyTitleStore "" 0 = emptyTitleStore ∧
    emptyTitleStore.entry "" 0 = 5 ∧ (5 : ℤ) ≠ 0 ∧
    emptyTitleStore.pending = false :=
  ⟨rfl, rfl, by decide, rfl⟩

/-- C9 (amended to non-empty targets): for every ledger and every
non-empty target `t`, `ResetToday(t)` sets today's entry for `t` to
exactly 0 while keeping the key present, and marks the store dirty;
every other date's entry for `t` and every entry of every other target
are unchanged, and `GetWeeklySeconds` afterwards reflects 0 for today
and the unchanged values for the prior six days. -/
theorem C9_reset_today_frame (st : Store) (t : String) (today : ℤ)
    (ht : t ≠ "") :
    ((TimeDataManager.reset_today st t today).data t |>.getD DayMap.empty) today
        = some 0 ∧
    (TimeDataManager.reset_today st t today).entry t today = 0 ∧
    (TimeDataManager.reset_today st t today).pending = true ∧
    (∀ d, d ≠ today →
      (TimeDataManager.reset_today st t today).entry t d = st.entry t d) ∧
    (∀ u, u ≠ t →
      (TimeDataManager.reset_today st t today).data u = st.data u) ∧
    TimeDataManager.get_weekly_seconds (TimeDataManager.reset_today st t today)
        t today
      = TimeDataManager.get_weekly_seconds st t today - st.entry t today := by
  refine ⟨?_, ?_, ?_, ?_, ?_, ?_⟩
  · rw [reset_today_data_eq st t today ht]
    simp
  · rw [reset_today_entry st t today today ht]
    simp
  · rw [TimeDataManager.reset_today, if_neg ht]
  · intro d hd
    rw [reset_today_entry st t today d ht, if_neg hd]
  · intro u hu
    rw [TimeDataManager.reset_today, if_neg ht]
    simp [hu]
  · rw [TimeDataManager.get_weekly_seconds, TimeDataManager.get_weekly_seconds,
      if_neg ht, if_neg ht]
    have hmap : ∀ i : ℕ,
        (((TimeDataManager.reset_today st t today).data t).getD DayMap.empty
            (today - i)).getD 0
          = if (i : ℤ) = 0 then 0
            else ((st.data t).getD DayMap.empty (today - i)).getD 0 := by
      intro i
      have := reset_today_entry st t today (today - i) ht
      rw [Store.entry, Store.entry] at this
      rw [this]
      by_cases hi : (i : ℤ) = 0
      · simp [hi]
      · have : today - (i : ℤ) ≠ today := by omega
        simp [this, hi]
    rw [show (List.range 7) = [0, 1, 2, 3, 4, 5, 6] from rfl]
    simp only [List.map_cons, List.map_nil, List.sum_cons, List.sum_nil,
      hmap]
    norm_num [Store.entry]

/-- Witness for C9 at a concrete input: target `"vn"`, today = 0, on the
fresh store. -/
theorem C9_reset_today_frame_witness :
    ("vn" : String) ≠ "" ∧
    (((TimeDataManager.reset_today freshStore "vn" 0).data "vn"
        |>.getD DayMap.empty) 0 = some 0 ∧
     (TimeDataManager.reset_today freshStore "vn" 0).entry "vn" 0 = 0 ∧
     (TimeDataManager.reset_today freshStore "vn" 0).pending = true ∧
     (∀ d, d ≠ 0 →
       (TimeDataManager.reset_today freshStore "vn" 0).entry "vn" d
         = freshStore.entry "vn" d) ∧
     (∀ u, u ≠ "vn" →
       (TimeDataManager.reset_today freshStore "vn" 0).data u
         = freshStore.data u) ∧
     TimeDataManager.get_weekly_seconds
         (TimeDataManager.reset_today freshStore "vn" 0) "vn" 0
       = TimeDataManager.get_weekly_seconds freshStore "vn" 0
         - freshStore.entry "vn" 0) :=
  ⟨by decide, C9_reset_today_frame freshStore "vn" 0 (by decide)⟩

lemma create_backup_primary (ok : Bool) (fs : FS) :
    (TimeDataManager.create_backup ok fs).primary = fs.primary := by
  rw [TimeDataManager.create_backup]
  split
  · cases h : fs.primary <;> simp [h]
  · rfl

lemma create_backup_temp (ok : Bool) (fs : FS) :
    (TimeDataManager.create_backup ok fs).temp = fs.temp := by
  rw [TimeDataManager.create_backup]
  split
  · cases h : fs.primary <;> simp [h]
  · rfl

/-- C3: for every on-disk state, `Load` never raises (the embedding is
a total function because every exception in the source is caught): with
a primary file that exists but fails to parse or read, the in-memory
ledger after `Load` equals exactly the backup's content when the backup
is valid, and is empty when the backup is missing or also fails; the
pending flag is cleared either way. -/
theorem C3_load_backup_recovery (fs : FS) (st : Store) (b : Ledger)
    (hp : fs.primary = some none) :
    (fs.backup = some (some b) →
      (TimeDataManager.load fs st).data = b ∧
      (TimeDataManager.load fs st).pending = false) ∧
    ((fs.backup = none ∨ fs.backup = some none) →
      (TimeDataManager.load fs st).data = Ledger.empty ∧
      (TimeDataManager.load fs st).pending = false) := by
  constructor
  · intro hb
    rw [TimeDataManager.load, hp]
    simp [parse_json, TimeDataManager.recover_from_backup, hb]
  · rintro (hb | hb) <;>
    · rw [TimeDataManager.load, hp]
      simp [parse_json, TimeDataManager.recover_from_backup, hb]

/-- Witness for C3 at a concrete input: corrupted primary, valid
empty-ledger backup. -/
theorem C3_load_backup_recovery_witness :
    (corruptPrimaryFS.backup = some (some Ledger.empty) →
      (TimeDataManager.load corruptPrimaryFS freshStore).data = Ledger.empty ∧
      (TimeDataManager.load corruptPrimaryFS freshStore).pending = false) ∧
    ((corruptPrimaryFS.backup = none ∨ corruptPrimaryFS.backup = some none) →
      (TimeDataManager.load corruptPrimaryFS freshStore).data = Ledger.empty ∧
      (TimeDataManager.load corruptPrimaryFS freshStore).pending = false) :=
  C3_load_backup_recovery corruptPrimaryFS freshStore Ledger.empty rfl

/-- C2 as stated is false for a failure of the temp-file *write* step:
on a dirty store, with the write failing after the temp file was
created, `save` raises and leaves the primary file untouched — but the
partially written temp file is left behind, not removed (the cleanup in
the source only runs in the validate/replace failure branch). -/
theorem C2_temp_left_behind_counterexample :
    (TimeDataManager.save failPartialEnv false dirtyStore sampleFS).2
      = .error "Failed to write temporary file" ∧
    (TimeDataManager.save failPartialEnv false dirtyStore sampleFS).1.temp
      = some none ∧
    some (none : FileContent) ≠ (none : Option FileContent) ∧
    (TimeDataManager.save failPartialEnv false dirtyStore sampleFS).1.primary
      = sampleFS.primary :=
  ⟨rfl, rfl, by simp, rfl⟩

/-- C2 (amended): whenever `save` fails — lock timeout, temp-file
write, validation, or replacement — it raises and leaves the primary
file's content unchanged; when the failure is in validation or
replacement (i.e. whenever the temp write itself succeeded under the
lock) the temp file's removal is attempted and the temp file is gone
when that `os.remove` succeeds — but a failed temp-file write, or a
failure of the removal attempt itself, can leave a temp file behind. -/
theorem C2_save_failure_keeps_primary (env : SaveEnv) (force : Bool)
    (st : Store) (fs : FS) (e : String)
    (herr : (TimeDataManager.save env force st fs).2 = .error e) :
    (TimeDataManager.save env force st fs).1.primary = fs.primary ∧
    (env.lock_ok = true → env.write_temp = .success → env.remove_ok = true →
      (TimeDataManager.save env force st fs).1.temp = none) := by
  by_cases hlk : env.lock_ok
  · cases hwt : env.write_temp <;>
      constructor <;>
      simp_all [TimeDataManager.save, create_backup_primary, create_backup_temp] <;>
      split_ifs at herr ⊢ <;>
      simp_all [create_backup_primary, create_backup_temp]
  · constructor
    · simp [TimeDataManager.save, hlk]
    · intro h
      exact absurd h hlk

/-- Witness for C2 at a concrete input: everything succeeds except the
temp-file validation. -/
theorem C2_save_failure_keeps_primary_witness :
    (TimeDataManager.save validateFailEnv false dirtyStore sampleFS).1.primary
      = sampleFS.primary ∧
    (validateFailEnv.lock_ok = true → validateFailEnv.write_temp = .success →
      validateFailEnv.remove_ok = true →
      (TimeDataManager.save validateFailEnv false dirtyStore sampleFS).1.temp
        = none) :=
  C2_save_failure_keeps_primary validateFailEnv false dirtyStore sampleFS
    "Failed to validate or replace file" rfl

/-- C8: `EmergencySave` never raises (the embedding is total: the last
stage's exception is swallowed too), and the fallback stages are
attempted exactly in cascade: only the regular `Save(forceBackup=True)`
when it succeeds; the JSON sidecar stage exactly when the regular save
raised; the flat-text dump stage exactly when the JSON sidecar write
raised too. -/
theorem C8_emergency_save_chain (env : SaveEnv) (json_ok text_ok : Bool)
    (st : Store) (fs : FS) :
    (TimeDataManager.emergency_save env json_ok text_ok st fs).2.2
      = .regular ::
        (if exceptIsOk (TimeDataManager.save env true st fs).2 then []
         else .jsonSidecar :: (if json_ok then [] else [.textDump])) := by
  rw [TimeDataManager.emergency_save]
  rcases h : TimeDataManager.save env true st fs with ⟨fs1, r⟩
  cases r <;> cases json_ok <;> cases text_ok <;> simp [h, exceptIsOk]

lemma strTruthy_some {s : String} (h : s ≠ "") : strTruthy (some s) = true := by
  simp [strTruthy, h]

lemma intTruthy_some {v : ℤ} (h : v ≠ 0) : intTruthy (some v) = true := by
  simp [intTruthy, h]

lemma safe_add_time_entry (st : Store) (t : String) (s d : ℤ)
    (ht : t ≠ "") (hs : 0 < s) :
    (TimeTracker.safe_add_time true st t s d).entry t d
      = st.entry t d + s := by
  rw [TimeTracker.safe_add_time, TimeDataManager.add_time_ok st t s d ht hs]
  simp [Store.entry]

/-- C4 as stated is false at an idle-duration tie: with the target's
process in the foreground, idle duration exactly equal to the 60 s AFK
threshold, the tick's resulting state is ACTIVE, not AFK. -/
theorem C4_idle_tie_counterexample :
    sampleTieEnv.idle = (sampleTracker.afk_threshold : ℚ) ∧
    (TimeTracker.track_tick sampleTieEnv sampleTracker).1.current_state
      = TrackingState.ACTIVE ∧
    TrackingState.ACTIVE ≠ TrackingState.AFK :=
  ⟨by norm_num [sampleTieEnv, sampleTracker], by decide, by decide⟩

lemma track_tick_state_eq (env : TimeTracker.TickEnv)
    (ts : TimeTracker.TrackerState)
    (h₁ : strTruthy ts.selected_process = true)
    (h₂ : strTruthy ts.selected_vn_title = true)
    (h₃ : (env.active_process == ts.selected_process) = true)
    (h₄ : env.data_lock_ok = true)
    (h₅ : ts.running = true) :
    (TimeTracker.track_tick env ts).1.current_state
      = if (ts.afk_threshold : ℚ) < env.idle then .AFK else .ACTIVE := by
  rw [TimeTracker.track_tick]
  simp only [h₁, h₂, h₃, h₄, h₅, Bool.not_true, Bool.or_self, Bool.false_or,
    if_false, ite_true, ite_false, not_true, Bool.false_eq_true]
  split_ifs <;> simp_all

/-- C4 (amended): on every tracking tick where the bound process is the
foreground process (with the data lock acquired and tracking running),
the state is AFK exactly when the sampled idle duration is strictly
greater than the AFK threshold; when the idle duration is less than
*or equal to* the threshold — ties included — the state is ACTIVE. -/
theorem C4_afk_strict_threshold (env : TimeTracker.TickEnv)
    (ts : TimeTracker.TrackerState)
    (h₁ : strTruthy ts.selected_process = true)
    (h₂ : strTruthy ts.selected_vn_title = true)
    (h₃ : (env.active_process == ts.selected_process) = true)
    (h₄ : env.data_lock_ok = true)
    (h₅ : ts.running = true) :
    ((TimeTracker.track_tick env ts).1.current_state = .AFK ↔
      (ts.afk_threshold : ℚ) < env.idle) ∧
    ((TimeTracker.track_tick env ts).1.current_state = .ACTIVE ↔
      env.idle ≤ (ts.afk_threshold : ℚ)) := by
  have hmain := track_tick_state_eq env ts h₁ h₂ h₃ h₄ h₅
  rw [hmain]
  by_cases hidle : (ts.afk_threshold : ℚ) < env.idle <;>
    simp [hidle, le_of_not_lt, not_le_of_lt]

/-- Witness for C4 at a concrete input: idle exactly at the threshold. -/
theorem C4_afk_strict_threshold_witness :
    strTruthy sampleTracker.selected_process = true ∧
    strTruthy sampleTracker.selected_vn_title = true ∧
    (sampleTieEnv.active_process == sampleTracker.selected_process) = true ∧
    sampleTieEnv.data_lock_ok = true ∧
    sampleTracker.running = true ∧
    (((TimeTracker.track_tick sampleTieEnv sampleTracker).1.current_state = .AFK ↔
        (sampleTracker.afk_threshold : ℚ) < sampleTieEnv.idle) ∧
     ((TimeTracker.track_tick sampleTieEnv sampleTracker).1.current_state = .ACTIVE ↔
        sampleTieEnv.idle ≤ (sampleTracker.afk_threshold : ℚ))) :=
  ⟨by decide, by decide, by decide, by decide, by decide,
   C4_afk_strict_threshold sampleTieEnv sampleTracker
     (by decide) (by decide) (by decide) (by decide) (by decide)⟩

/-- C5 as stated is false: `Stop()` on a running tracker with an open
session does flush, but it leaves the target and process-name fields
set, leaves the state field untouched (here still ACTIVE, not forced to
INACTIVE), and invokes no observer callbacks (empty event trace). -/
theorem C5_stop_counterexample :
    (TimeTracker.stop 110 0 true true sampleSessionTracker).1.selected_vn_title
      = some "vn" ∧
    some "vn" ≠ (none : Option String) ∧
    (TimeTracker.stop 110 0 true true sampleSessionTracker).1.selected_process
      = some "foo.exe" ∧
    (TimeTracker.stop 110 0 true true sampleSessionTracker).1.current_state
      = TrackingState.ACTIVE ∧
    TrackingState.ACTIVE ≠ TrackingState.INACTIVE ∧
    (TimeTracker.stop 110 0 true true sampleSessionTracker).2 = [] :=
  ⟨rfl, by simp, rfl, by decide, by decide, rfl⟩

/-- C5 (amended): for every call to `Stop()` while tracking is running
with a (non-empty) target set and an open session, with the final lock
acquisitions succeeding and a positive pending elapsed time: the
pending elapsed time since `sessionStart` is flushed into the ledger
for the current target and `sessionStart` is cleared, and the running
flag is cleared — but the target and process-name fields keep their
values, the state field is left unchanged (not forced to INACTIVE), and
no observers are notified. -/
theorem C5_stop_flushes_but_keeps_target (now today : ℤ)
    (ts : TimeTracker.TrackerState) (tl : String) (s : ℤ)
    (hr : ts.running = true)
    (ht : ts.selected_vn_title = some tl) (ht' : tl ≠ "")
    (hs : ts.last_start = some s) (hs0 : s ≠ 0)
    (hpos : 0 < now - s) :
    (TimeTracker.stop now today true true ts).1.running = false ∧
    (TimeTracker.stop now today true true ts).1.last_start = none ∧
    (TimeTracker.stop now today true true ts).1.store.entry tl today
      = ts.store.entry tl today + (now - s) ∧
    (TimeTracker.stop now today true true ts).1.selected_vn_title
      = ts.selected_vn_title ∧
    (TimeTracker.stop now today true true ts).1.selected_process
      = ts.selected_process ∧
    (TimeTracker.stop now today true true ts).1.current_state
      = ts.current_state ∧
    (TimeTracker.stop now today true true ts).2 = [] := by
  rw [TimeTracker.stop]
  simp only [hr, Bool.true_eq_false, not_true, if_false, ite_false, ite_true,
    if_true]
  rw [ht, hs]
  simp only [strTruthy_some ht', intTruthy_some hs0, Bool.and_self, if_true,
    ite_true, Option.getD_some]
  refine ⟨by trivial, by trivial, ?_, by trivial, by trivial, by trivial,
    by trivial⟩
  exact safe_add_time_entry ts.store tl (now - s) today ht' hpos

/-- Witness for C5 at a concrete input: session opened at 50, stopped at
110. -/
theorem C5_stop_flushes_but_keeps_target_witness :
    (TimeTracker.stop 110 0 true true sampleSessionTracker).1.running = false ∧
    (TimeTracker.stop 110 0 true true sampleSessionTracker).1.last_start = none ∧
    (TimeTracker.stop 110 0 true true sampleSessionTracker).1.store.entry "vn" 0
      = sampleSessionTracker.store.entry "vn" 0 + (110 - 50) ∧
    (TimeTracker.stop 110 0 true true sampleSessionTracker).1.selected_vn_title
      = sampleSessionTracker.selected_vn_title ∧
    (TimeTracker.stop 110 0 true true sampleSessionTracker).1.selected_process
      = sampleSessionTracker.selected_process ∧
    (TimeTracker.stop 110 0 true true sampleSessionTracker).1.current_state
      = sampleSessionTracker.current_state ∧
    (TimeTracker.stop 110 0 true true sampleSessionTracker).2 = [] :=
  C5_stop_flushes_but_keeps_target 110 0 sampleSessionTracker "vn" 50
    rfl rfl (by decide) rfl (by decide) (by decide)

lemma track_tick_flush (env : TimeTracker.TickEnv)
    (ts : TimeTracker.TrackerState) (tl : String) (s : ℤ)
    (h₁ : strTruthy ts.selected_process = true)
    (ht : ts.selected_vn_title = some tl) (ht' : tl ≠ "")
    (h₃ : (env.active_process == ts.selected_process) = true)
    (h₄ : env.data_lock_ok = true)
    (h₅ : ts.running = true)
    (h₆ : ¬((ts.afk_threshold : ℚ) < env.idle))
    (hs : ts.last_start = some s) (hs0 : s ≠ 0)
    (h₉ : TimeTracker.save_interval < env.now - ts.last_save_time)
    (h₁₀ : 0 < env.now - s) :
    (TimeTracker.track_tick env ts).1
      = { ts with
          current_state := .ACTIVE
          store := TimeTracker.safe_add_time env.add_lock_ok ts.store tl
                     (env.now - s) env.today
          last_start := some env.now
          last_save_time := env.now } := by
  rw [TimeTracker.track_tick]
  have h₂ : strTruthy ts.selected_vn_title = true := by
    rw [ht]; exact strTruthy_some ht'
  simp only [h₁, h₂, h₃, h₄, h₅, Bool.not_true, Bool.or_self, Bool.false_or,
    if_false, ite_true, ite_false, not_true, Bool.false_eq_true, h₆]
  rw [ht, hs]
  simp only [Option.getD_some, intTruthy_some hs0, reduceCtorEq, ite_false,
    if_false, if_neg h₆]
  simp [h₉, h₁₀, intTruthy_some hs0]

/-- C7: `CurrentSeconds()` returns today's persisted seconds for the
active target plus the not-yet-flushed in-progress elapsed time; and on
a tick that flushes the in-progress elapsed time into the ledger and
resets `sessionStart` to the flush instant, `CurrentSeconds` computed at
that instant equals its value immediately before the flush — no
double-counting. -/
theorem C7_current_seconds_no_double_count (env : TimeTracker.TickEnv)
    (ts : TimeTracker.TrackerState) (tl : String) (s : ℤ)
    (h₁ : strTruthy ts.selected_process = true)
    (ht : ts.selected_vn_title = some tl) (ht' : tl ≠ "")
    (h₃ : (env.active_process == ts.selected_process) = true)
    (h₄ : env.data_lock_ok = true)
    (h₅ : ts.running = true)
    (h₆ : ¬((ts.afk_threshold : ℚ) < env.idle))
    (hs : ts.last_start = some s) (hs0 : s ≠ 0)
    (h₉ : TimeTracker.save_interval < env.now - ts.last_save_time)
    (h₁₀ : 0 < env.now - s)
    (h₁₁ : env.add_lock_ok = true)
    (h₁₂ : env.now ≠ 0) :
    TimeTracker.get_current_seconds env.now env.today ts
      = TimeDataManager.get_today_seconds ts.store tl env.today
        + (env.now - s) ∧
    (TimeTracker.track_tick env ts).1.last_start = some env.now ∧
    TimeTracker.get_current_seconds env.now env.today
        (TimeTracker.track_tick env ts).1
      = TimeTracker.get_current_seconds env.now env.today ts := by
  have htick := track_tick_flush env ts tl s h₁ ht ht' h₃ h₄ h₅ h₆ hs hs0 h₉ h₁₀
  have hbefore : TimeTracker.get_current_seconds env.now env.today ts
      = TimeDataManager.get_today_seconds ts.store tl env.today
        + (env.now - s) := by
    rw [TimeTracker.get_current_seconds, ht, hs]
    simp [strTruthy_some ht', intTruthy_some hs0]
  refine ⟨hbefore, by rw [htick], ?_⟩
  rw [htick, hbefore]
  rw [TimeTracker.get_current_seconds]
  simp only [ht, strTruthy_some ht', Bool.not_true, if_false, ite_false,
    Option.getD_some, intTruthy_some h₁₂]
  rw [h₁₁]
  have hsafe := safe_add_time_entry ts.store tl (env.now - s) env.today ht' h₁₀
  rw [TimeDataManager.get_today_seconds, TimeDataManager.get_today_seconds,
    if_neg ht', if_neg ht']
  rw [Store.entry, Store.entry] at hsafe
  rw [hsafe]
  simp

/-- Witness for C7 at a concrete input: session opened at 50, tick at
100 with idle 0. -/
theorem C7_current_seconds_no_double_count_witness :
    strTruthy sampleSessionTracker.selected_process = true ∧
    sampleSessionTracker.selected_vn_title = some "vn" ∧
    (TimeTracker.get_current_seconds 100 0 sampleSessionTracker
        = TimeDataManager.get_today_seconds sampleSessionTracker.store "vn" 0
          + (100 - 50) ∧
     (TimeTracker.track_tick sampleFlushEnv sampleSessionTracker).1.last_start
        = some 100 ∧
     TimeTracker.get_current_seconds 100 0
         (TimeTracker.track_tick sampleFlushEnv sampleSessionTracker).1
       = TimeTracker.get_current_seconds 100 0 sampleSessionTracker) :=
  ⟨by decide, rfl,
   C7_current_seconds_no_double_count sampleFlushEnv sampleSessionTracker "vn" 50
     (by decide) rfl (by decide) (by decide) (by decide) (by decide)
     (by norm_num [sampleFlushEnv, sampleSessionTracker, sampleTracker])
     rfl (by decide) (by decide) (by decide) (by decide) (by decide)⟩

lemma eventsOutsideLock_replicate (n : ℕ) (e : Event) (rest : List Event)
    (ha : e ≠ .acquire) (hr : e ≠ .release) :
    eventsOutsideLock 0 (List.replicate n e ++ rest)
      = eventsOutsideLock 0 rest := by
  induction n with
  | zero => simp
  | succ k ih =>
    rw [List.replicate_succ, List.cons_append]
    cases e <;> simp_all [eventsOutsideLock]

lemma eventsOutsideLock_replicate_state (n : ℕ) (rest : List Event) :
    eventsOutsideLock 0 (List.replicate n .stateCallback ++ rest)
      = eventsOutsideLock 0 rest :=
  eventsOutsideLock_replicate n .stateCallback rest (by simp) (by simp)

lemma eventsOutsideLock_replicate_update (n : ℕ) :
    eventsOutsideLock 0 (List.replicate n .updateCallback) = true := by
  have := eventsOutsideLock_replicate n .updateCallback [] (by simp) (by simp)
  simpa [eventsOutsideLock] using this

lemma track_tick_callbacks_outside (env : TimeTracker.TickEnv)
    (ts : TimeTracker.TrackerState) :
    callbacksOutsideLock (TimeTracker.track_tick env ts).2 = true := by
  rw [TimeTracker.track_tick]
  split
  · simp [callbacksOutsideLock, eventsOutsideLock]
  · split
    · split
      · simp [callbacksOutsideLock, eventsOutsideLock]
      · simp [callbacksOutsideLock, eventsOutsideLock, List.append_assoc,
          eventsOutsideLock_replicate_state, eventsOutsideLock_replicate_update]
    · simp [callbacksOutsideLock, eventsOutsideLock]

lemma update_process_list_callback_inside (nl ol : List String) (n : ℕ)
    (hne : nl ≠ ol) (hn : 0 < n) :
    callbacksOutsideLock (ProcessMonitor.update_process_list true nl ol n).2
      = false := by
  obtain ⟨k, rfl⟩ : ∃ k, n = k + 1 := ⟨n - 1, by omega⟩
  rw [ProcessMonitor.update_process_list]
  simp only [hne, if_true, ite_true, if_false, ite_false, ne_eq,
    not_false_iff]
  rw [List.replicate_succ]
  simp [callbacksOutsideLock, eventsOutsideLock]

/-- C6 as stated is false for the process monitor: with the lock
acquired, a changed process list and one registered callback, the trace
of `_update_process_list` invokes the callback strictly between the
lock acquisition and the release — while the monitor's lock is held. -/
theorem C6_process_list_callback_counterexample :
    (ProcessMonitor.update_process_list true ["a"] [] 1).2
      = [.acquire, .processListCallback, .release] ∧
    callbacksOutsideLock (ProcessMonitor.update_process_list true ["a"] [] 1).2
      = false :=
  ⟨by decide, by decide⟩

/-- C6 (amended): the tracking loop's state and update callbacks are
always invoked outside the tracker's data lock (on every tick, whatever
the inputs), but the process monitor's process-list-change callbacks are
invoked while the monitor's internal lock is held (whenever the list
changed and at least one callback is registered). -/
theorem C6_callbacks_lock_discipline :
    (∀ (env : TimeTracker.TickEnv) (ts : TimeTracker.TrackerState),
      callbacksOutsideLock (TimeTracker.track_tick env ts).2 = true) ∧
    (∀ (nl ol : List String) (n : ℕ), nl ≠ ol → 0 < n →
      callbacksOutsideLock
        (ProcessMonitor.update_process_list true nl ol n).2 = false) :=
  ⟨track_tick_callbacks_outside, update_process_list_callback_inside⟩

/-- Witness for C6 at concrete inputs. -/
theorem C6_callbacks_lock_discipline_witness :
    callbacksOutsideLock
      (TimeTracker.track_tick sampleTieEnv sampleTracker).2 = true ∧
    (["a"] : List String) ≠ [] ∧ 0 < 1 ∧
    callbacksOutsideLock
      (ProcessMonitor.update_process_list true ["b"] [] 2).2 = false :=
  ⟨C6_callbacks_lock_discipline.1 sampleTieEnv sampleTracker, by decide,
   by decide,
   C6_callbacks_lock_discipline.2 ["b"] [] 2 (by decide) (by decide)⟩

end VNTracker
